import Mathlib

/-!
Verification of the SubsBuzz ingestion-to-digest pipeline.

This file gives a shallow embedding of the pipeline code:
  - content extraction and text normalization
    (services/email-worker/content_extractor.py),
  - Gmail client sender extraction, membership filtering and OAuth token
    refresh (services/email-worker/gmail_client.py, tasks.py),
  - thematic classification and digest assembly
    (utils/sb-make-history.py),
and proves the specified properties about the embedded definitions.

Python strings are modelled as Lean `String` / `List Char`; regular
expression substitutions are implemented as explicit recursive functions
whose behaviour matches the concrete patterns used by the code.
-/

/- ===== basic Python string helpers ===== -/

/-- Whitespace characters: the ASCII class matched by Python's regex `\s`
and stripped by `str.strip()` (space, tab, newline, carriage return,
vertical tab, form feed). -/
def isPySpace (c : Char) : Bool :=
  c == ' ' || c == '\t' || c == '\n' || c == '\r' || c == '\x0b' || c == '\x0c'

/-- Python `str.lower()` (ASCII case mapping suffices for the inputs the
pipeline compares). -/
def pyLower (s : String) : String :=
  String.mk (s.data.map Char.toLower)

/-- Substring test on character lists: `needle` occurs contiguously in the
list. -/
def charListInfix (needle : List Char) : List Char → Bool
  | [] => needle.isEmpty
  | c :: rest => needle.isPrefixOf (c :: rest) || charListInfix needle rest

/-- Python substring membership `needle in haystack`. -/
def strIn (needle haystack : String) : Bool :=
  charListInfix needle.data haystack.data

/-- Python `str.strip()` on a character list. -/
def pyStripChars (l : List Char) : List Char :=
  ((l.dropWhile isPySpace).reverse.dropWhile isPySpace).reverse

/-- Python `str.strip()`. -/
def pyStrip (s : String) : String :=
  String.mk (pyStripChars s.data)

/- ===== content_extractor.py: _clean_text_content ===== -/

/-- Substitution `re.sub(r'\s+', ' ', text)` (content_extractor.py line 266):
every maximal run of whitespace characters is replaced by a single space.
Note this also collapses newlines, so the output never contains `'\n'`.
The Boolean argument records whether the previous character was part of a
whitespace run already replaced. -/
def collapseWsAux (prevSpace : Bool) : List Char → List Char
  | [] => []
  | c :: rest =>
    if isPySpace c then
      if prevSpace then collapseWsAux true rest
      else ' ' :: collapseWsAux true rest
    else c :: collapseWsAux false rest

/-- Substitution `re.sub(r'\s+', ' ', text)`. -/
def collapseWsRuns (l : List Char) : List Char :=
  collapseWsAux false l

/-- Index of the last `'\n'` in a list (meaningful only when one occurs,
which is how it is used below). -/
def lastNewlineIdx : List Char → Nat
  | [] => 0
  | _ :: rest => if rest.contains '\n' then lastNewlineIdx rest + 1 else 0

/-- Substitution `re.sub(r'\n\s*\n\s*\n+', '\n\n', text)`
(content_extractor.py line 269). A match starts at a newline whose
following whitespace run contains at least two further newlines, and
(by greedy backtracking of the pattern) extends to the last newline of
that whitespace run; it is replaced by two newlines. The fuel argument,
initialized with the list length, only discharges termination: every
step consumes at least one character. -/
def collapseBlankAux : Nat → List Char → List Char
  | _, [] => []
  | 0, l => l
  | fuel + 1, c :: rest =>
    if c = '\n' then
      if 2 ≤ (rest.takeWhile isPySpace).count '\n' then
        '\n' :: '\n' ::
          collapseBlankAux fuel (rest.drop (lastNewlineIdx (rest.takeWhile isPySpace) + 1))
      else c :: collapseBlankAux fuel rest
    else c :: collapseBlankAux fuel rest

/-- Substitution `re.sub(r'\n\s*\n\s*\n+', '\n\n', text)`. -/
def collapseBlankLineRuns (l : List Char) : List Char :=
  collapseBlankAux l.length l

/-- First index of the closing delimiter `rb`, failing on a newline first
(the regex `.` does not match `'\n'`). -/
def findCloseIdx (rb : Char) : List Char → Option Nat
  | [] => none
  | c :: rest =>
    if c = rb then some 0
    else if c = '\n' then none
    else (findCloseIdx rb rest).map (· + 1)

/-- Substitution `re.sub(r'\[.*?\]', '', text)` and
`re.sub(r'\|.*?\|', '', text)` (content_extractor.py lines 279-280):
a non-greedy match runs from an opening delimiter to the first closing
delimiter on the same line; the match is deleted. The fuel argument,
initialized with the list length, only discharges termination. -/
def removeDelimitedAux (lb rb : Char) : Nat → List Char → List Char
  | _, [] => []
  | 0, l => l
  | fuel + 1, c :: rest =>
    if c = lb then
      match findCloseIdx rb rest with
      | some k => removeDelimitedAux lb rb fuel (rest.drop (k + 1))
      | none => c :: removeDelimitedAux lb rb fuel rest
    else c :: removeDelimitedAux lb rb fuel rest

/-- Deletion of delimited spans, as in content_extractor.py lines 279-280. -/
def removeDelimited (lb rb : Char) (l : List Char) : List Char :=
  removeDelimitedAux lb rb l.length l

/-- Apply a per-line transformation, as the MULTILINE `^...$` substitutions
on lines 281-286 of content_extractor.py do. -/
def onLines (f : List Char → List Char) (l : List Char) : List Char :=
  List.intercalate ['\n'] ((l.splitOn '\n').map f)

/-- Substitution `re.sub(r'^\n+|\n+$', '', text)` (content_extractor.py
line 276): delete a leading and a trailing run of newline characters. -/
def stripEdgeNewlines (l : List Char) : List Char :=
  ((l.dropWhile (· == '\n')).reverse.dropWhile (· == '\n')).reverse

/-- Delete from the first occurrence of `pat` to the end of the line,
implementing `re.sub(r'PAT.*$', '', line)` for a literal pattern. -/
def cutFrom (pat : List Char) : List Char → List Char
  | [] => []
  | c :: rest => if pat.isPrefixOf (c :: rest) then [] else c :: cutFrom pat rest

/-- Characters of the separator class `[\*\-\_\=]` of content_extractor.py
line 286. -/
def isSepChar (c : Char) : Bool :=
  c == '*' || c == '-' || c == '_' || c == '='

/-- Line matched by `^\s*[\*\-\_\=]{3,}\s*$` (content_extractor.py
line 286): optional whitespace, at least three separator characters,
optional whitespace. (The pipeline only reaches this step with
newline-free lines, so the line-local reading is exact.) -/
def isSeparatorLine (l : List Char) : Bool :=
  let l1 := l.dropWhile isPySpace
  let seps := l1.takeWhile isSepChar
  let l2 := l1.dropWhile isSepChar
  3 ≤ seps.length && l2.all isPySpace

/-- Line beginning with the quote marker, matched by `^>.*$`
(content_extractor.py line 281). -/
def isQuoteLine (l : List Char) : Bool :=
  match l with
  | '>' :: _ => true
  | _ => false

/-- The substitution chain of `ContentExtractor._clean_text_content`
(content_extractor.py lines 262-289) on a character list, in source
order: collapse whitespace runs, collapse blank-line runs, trim each
line, strip edge newlines, delete bracketed and pipe-delimited spans,
blank quoted lines, cut boilerplate sentences to end of line, blank
separator lines. -/
def cleanSteps (l : List Char) : List Char :=
  let t := collapseWsRuns l
  let t := collapseBlankLineRuns t
  let t := List.intercalate ['\n'] ((t.splitOn '\n').map pyStripChars)
  let t := stripEdgeNewlines t
  let t := removeDelimited '[' ']' t
  let t := removeDelimited '|' '|' t
  let t := onLines (fun line => if isQuoteLine line then [] else line) t
  let t := onLines (cutFrom "Click here to view".data) t
  let t := onLines (cutFrom "This email was sent to".data) t
  let t := onLines (cutFrom "You received this".data) t
  let t := onLines (cutFrom "To unsubscribe".data) t
  let t := onLines (fun line => if isSeparatorLine line then [] else line) t
  pyStripChars t

/-- `ContentExtractor._clean_text_content` (content_extractor.py
lines 257-289). -/
def cleanTextContent (text : String) : String :=
  if text = "" then "" else String.mk (cleanSteps text.data)

/-- Index of the first `'>'` in a list (the regex character class `[^>]*`
stops exactly there and, unlike `.`, does match newlines). -/
def findFirstGt : List Char → Option Nat
  | [] => none
  | c :: rest =>
    if c = '>' then some 0 else (findFirstGt rest).map (· + 1)

/-- `ContentExtractor._strip_html_tags` (content_extractor.py
lines 253-255): `re.sub(r'<[^>]*>', ' ', content)` — each span from a
`<` to the first following `>` is replaced by one space. The fuel
argument, initialized with the list length, only discharges
termination. -/
def stripHtmlTagsAux : Nat → List Char → List Char
  | _, [] => []
  | 0, l => l
  | fuel + 1, c :: rest =>
    if c = '<' then
      match findFirstGt rest with
      | some k => ' ' :: stripHtmlTagsAux fuel (rest.drop (k + 1))
      | none => c :: stripHtmlTagsAux fuel rest
    else c :: stripHtmlTagsAux fuel rest

/-- `ContentExtractor._strip_html_tags`. -/
def stripHtmlTags (content : String) : String :=
  String.mk (stripHtmlTagsAux content.data.length content.data)

/- ===== content_extractor.py: extraction entry points ===== -/

/-- Search for the regex `<[^>]+>` (a `<`, at least one non-`>` character,
then `>`), as used by `ContentExtractor._contains_html`
(content_extractor.py line 57). -/
def hasTagMatch : List Char → Bool
  | [] => false
  | '<' :: c :: rest => (!(c == '>') && (c :: rest).contains '>') || hasTagMatch (c :: rest)
  | _ :: rest => hasTagMatch rest

/-- `ContentExtractor._contains_html` (content_extractor.py lines 55-57):
lowercased `<html` occurrence, literal `<HTML` occurrence, or any
`<[^>]+>` tag-shaped span. -/
def containsHtml (content : String) : Bool :=
  strIn "<html" (pyLower content) || strIn "<HTML" content || hasTagMatch content.data

/-- Quality gate ending `ContentExtractor._extract_from_email_html`
(content_extractor.py lines 244-251): when the structured result
`final_content` is shorter than 200 characters, recompute a naive
candidate by tag-stripping and normalizing the original raw body, and
keep it only when `len(basic_text) > len(final_content) * 1.5`; the
float comparison is exact for these magnitudes, so it is modelled by
`3 * len(final_content) < 2 * len(basic_text)`. -/
def extractQualityGate (final_content raw_content : String) : String :=
  if final_content.length < 200 then
    let basic_text := cleanTextContent (stripHtmlTags raw_content)
    if 3 * final_content.length < 2 * basic_text.length then basic_text
    else final_content
  else final_content

/-- `ContentExtractor.extract_newsletter_content`
(content_extractor.py lines 25-53). The HTML branch — BeautifulSoup
parsing, the optional online-version fetch and the structured
extraction — is abstracted as `htmlPipeline`, whose `Except.error`
outcome models any exception raised inside the `try` block; the
function catches it and falls back to the tag-stripped, normalized raw
content, so no exception escapes to the caller. -/
def extractNewsletterContent (htmlPipeline : String → Except String String)
    (raw_content : String) : String :=
  if raw_content = "" then ""
  else if !containsHtml raw_content then cleanTextContent raw_content
  else
    match htmlPipeline raw_content with
    | Except.ok s => s
    | Except.error _ => cleanTextContent (stripHtmlTags raw_content)

/- ===== gmail_client.py: sender extraction and membership filter ===== -/

/-- Suffix after the first occurrence of a character. -/
def afterFirstChar (a : Char) : List Char → List Char
  | [] => []
  | c :: rest => if c = a then rest else afterFirstChar a rest

/-- Python `str.split()` with no argument: split on whitespace runs,
producing no empty tokens. The first argument accumulates the current
token in reverse. -/
def pySplitWsAux (acc : List Char) : List Char → List (List Char)
  | [] => if acc.isEmpty then [] else [acc.reverse]
  | c :: rest =>
    if isPySpace c then
      if acc.isEmpty then pySplitWsAux [] rest
      else acc.reverse :: pySplitWsAux [] rest
    else pySplitWsAux (c :: acc) rest

/-- Python `str.split()` with no argument. -/
def pySplitWs (s : String) : List String :=
  (pySplitWsAux [] s.data).map String.mk

/-- Sender extraction from a From header
(`GmailClient._parse_gmail_message`, gmail_client.py lines 206-210):
when the header contains both `<` and `>`, the sender is
`from_header.split('<')[1].split('>')[0]` — the text after the first
`<`, truncated at the next `<` or `>`; otherwise the last
whitespace-delimited token (`none` models the `IndexError` raised when
a non-empty header consists only of whitespace, which the caller's
per-message `try` turns into a skip). -/
def extractSender (from_header : String) : Option String :=
  if strIn "<" from_header && strIn ">" from_header then
    some (String.mk ((afterFirstChar '<' from_header.data).takeWhile
      (fun ch => !(ch == '<') && !(ch == '>'))))
  else if from_header = "" then some ""
  else
    match (pySplitWs from_header).getLast? with
    | some t => some t
    | none => none

/-- Parsed email record (`ParsedEmail` dataclass, gmail_client.py
lines 22-30). -/
structure ParsedEmail where
  id : String
  sender : String
  subject : String
  received_at : String
  content : String
  original_link : Option String
deriving DecidableEq, Repr

/-- Second membership filter of `GmailClient.fetch_emails`
(gmail_client.py line 176): a parsed message is kept when
`any(sender in parsed_email.sender for sender in valid_senders)` —
some requested sender occurs as a (case-sensitive) substring of the
resolved sender. -/
def filterByMonitoredSenders (valid_senders : List String)
    (parsed : List ParsedEmail) : List ParsedEmail :=
  parsed.filter (fun p => valid_senders.any (fun sender => strIn sender p.sender))

/- ===== gmail_client.py / tasks.py: OAuth token refresh ===== -/

/-- Stored OAuth credential as read by `GmailClient` (the `oauth_data`
dict): access token, optional refresh token, optional expiry instant
(modelled as an integer timestamp in seconds). -/
structure OAuthData where
  access_token : String
  refresh_token : Option String
  expires_at : Option Int
deriving DecidableEq, Repr

/-- Provider response to a token-endpoint refresh call (the external
provider port): a new access token, an optional new refresh token, and
an optional expiry. -/
structure ProviderTokenResponse where
  access_token : String
  refresh_token : Option String
  expires_at : Option Int
deriving DecidableEq, Repr

/-- Updated token data returned by `GmailClient.refresh_oauth_token`
(gmail_client.py lines 91-95). -/
structure TokenUpdate where
  access_token : String
  refresh_token : Option String
  expires_at : Option Int
deriving DecidableEq, Repr

/-- Refresh threshold of google-auth's `Credentials.expired` (3 minutes
45 seconds of clock skew). -/
def refreshThresholdSecs : Int := 225

/-- google-auth `Credentials.expired`: false when no expiry is stored,
otherwise true when `now` has reached the expiry minus the skew
threshold. -/
def credentialsExpired (now : Int) (d : OAuthData) : Bool :=
  match d.expires_at with
  | none => false
  | some t => decide (t - refreshThresholdSecs ≤ now)

/-- Models google-auth `Credentials.refresh` via `_client.refresh_grant`:
it raises (here `none`) when no refresh token is stored or the provider
call fails (`resp = none` models a transport error or provider
rejection); on success the retained refresh token defaults to the
previously stored one when the response omits it
(`response_data.get("refresh_token", refresh_token)`). -/
def credentialsRefresh (d : OAuthData) (resp : Option ProviderTokenResponse) :
    Option TokenUpdate :=
  match d.refresh_token with
  | none => none
  | some rt =>
    match resp with
    | none => none
    | some r =>
      some { access_token := r.access_token,
             refresh_token := match r.refresh_token with
               | some nrt => some nrt
               | none => some rt,
             expires_at := r.expires_at }

/-- `GmailClient.refresh_oauth_token` (gmail_client.py lines 72-102):
returns `none` when the credential is not yet expired (still valid) —
not the input credential; on a successful refresh returns the updated
token data; any exception during refresh is caught and also yields
`none`. -/
def refreshOauthToken (now : Int) (resp : Option ProviderTokenResponse)
    (d : OAuthData) : Option TokenUpdate :=
  if !credentialsExpired now d then none
  else
    match credentialsRefresh d resp with
    | none => none
    | some u => some u

/-- Body of the PATCH request issued by `save_token_callback`
(tasks.py lines 194-205) and by `_refresh_oauth_tokens_async`
(tasks.py lines 297-301) to persist a refreshed token. -/
structure TokenPatchPayload where
  accessToken : String
  refreshToken : Option String
  expiresAt : Option Int
deriving DecidableEq, Repr

/-- The payload `save_token_callback` builds from refreshed token data
(tasks.py lines 197-201). -/
def saveTokenCallbackPayload (u : TokenUpdate) : TokenPatchPayload :=
  { accessToken := u.access_token,
    refreshToken := u.refresh_token,
    expiresAt := u.expires_at }

/- ===== sb-make-history.py: ThematicProcessor ===== -/

/-- Digest email record as consumed by the `ThematicProcessor`
(sb-make-history.py lines 200-222): the fields the classifier reads
from the stored digest-email dict. -/
structure ThemedEmail where
  id : Nat
  sender : String
  subject : String
  summary : String
  topics : List String
  keywords : List String
deriving DecidableEq, Repr

/-- `ThematicProcessor.predefined_categories` (sb-make-history.py
lines 56-67). -/
def predefinedCategories : List String :=
  ["Media + Advertising",
   "Politics",
   "Programming and Computer Engineering",
   "Business + Finance",
   "Entertainment + Arts",
   "Science + Technology",
   "Sports",
   "Food, Drink, Dining",
   "Opinion + Thought",
   "Other"]

/-- `ThematicProcessor.category_keywords` (sb-make-history.py
lines 70-110). -/
def categoryKeywordsTable : List (String × List String) :=
  [("Media + Advertising",
    ["media", "advertising", "marketing", "television", "streaming", "netflix",
     "disney", "rtl", "tf1", "broadcast", "ad", "campaign", "brand", "publisher",
     "journalism", "news", "magazine", "radio"]),
   ("Politics",
    ["politics", "government", "policy", "election", "vote", "congress",
     "senate", "president", "democratic", "republican", "biden", "trump",
     "supreme court", "legislation", "political"]),
   ("Programming and Computer Engineering",
    ["programming", "software", "code", "development", "engineering", "tech",
     "api", "javascript", "python", "react", "ai", "artificial intelligence",
     "machine learning", "data", "algorithm", "computing", "developer"]),
   ("Business + Finance",
    ["business", "finance", "stock", "market", "investment", "economy",
     "financial", "revenue", "profit", "startup", "vc", "funding", "ipo",
     "acquisition", "merger", "corporate", "earnings"]),
   ("Entertainment + Arts",
    ["entertainment", "movie", "film", "music", "art", "culture", "celebrity",
     "concert", "album", "artist", "performance", "theater", "gallery",
     "creative", "design", "fashion"]),
   ("Science + Technology",
    ["science", "research", "study", "technology", "innovation", "discovery",
     "experiment", "medical", "health", "climate", "environment", "space",
     "physics", "biology", "chemistry"]),
   ("Sports",
    ["sports", "football", "basketball", "baseball", "soccer", "tennis",
     "golf", "olympics", "athlete", "team", "game", "match", "tournament",
     "championship", "league"]),
   ("Food, Drink, Dining",
    ["food", "restaurant", "dining", "recipe", "cooking", "drink", "wine",
     "beer", "coffee", "chef", "cuisine", "meal", "nutrition", "taste",
     "flavor", "culinary"]),
   ("Opinion + Thought",
    ["opinion", "editorial", "commentary", "analysis", "perspective",
     "viewpoint", "thought", "philosophy", "reflection", "insight",
     "argument", "debate", "discussion", "critique"]),
   ("Other",
    ["other", "miscellaneous", "general", "various", "mixed", "diverse"])]

/-- `self.category_keywords.get(category, [])` (sb-make-history.py
line 189). -/
def categoryKeywords (category : String) : List String :=
  (categoryKeywordsTable.lookup category).getD []

/-- `ThematicProcessor.get_sender_category_bonus` (sb-make-history.py
lines 224-238). -/
def getSenderCategoryBonus (sender : String) (category_keywords : List String) : Nat :=
  let sender_lower := pyLower sender
  if (["washingtonpost", "newyorker", "media", "news"].any
        (fun x => strIn x sender_lower))
      && (category_keywords.contains "media" || category_keywords.contains "politics") then
    20
  else if (["substack", "pitchbook"].any (fun x => strIn x sender_lower))
      && (category_keywords.contains "business" || category_keywords.contains "tech") then
    15
  else 0

/-- The concatenated, lowercased search text
`f"{subject} {summary} {' '.join(topics)} {' '.join(keywords)}".lower()`
(sb-make-history.py line 203). -/
def emailTextOf (email : ThemedEmail) : String :=
  pyLower (email.subject ++ " " ++ email.summary ++ " "
    ++ String.intercalate " " email.topics ++ " "
    ++ String.intercalate " " email.keywords)

/-- `ThematicProcessor.calculate_category_fit_score` (sb-make-history.py
lines 200-222): the keyword loop accumulates 10 per matched keyword,
plus 15 for a subject match and 10 for a topic match of that same
keyword; the sender bonus is added and the total capped at 100. -/
def calculateCategoryFitScore (email : ThemedEmail) (category_keywords : List String) : Nat :=
  let email_text := emailTextOf email
  let score := category_keywords.foldl (fun score keyword =>
    if strIn (pyLower keyword) email_text then
      let score := score + 10
      let score := if strIn (pyLower keyword) (pyLower email.subject) then score + 15 else score
      if email.topics.any (fun topic => strIn (pyLower keyword) (pyLower topic)) then score + 10
      else score
    else score) 0
  min 100 (score + getSenderCategoryBonus email.sender category_keywords)

/-- Descending-score ordering used by
`sorted(email_scores, key=lambda x: x['score'], reverse=True)`
(sb-make-history.py line 198); `List.insertionSort` with this relation
is stable, like Python's sort. -/
def scoreDesc (a b : ThemedEmail × Nat) : Prop := b.2 ≤ a.2

instance : DecidableRel scoreDesc := fun a b => Nat.decLe b.2 a.2

/-- `ThematicProcessor.classify_emails_to_category` (sb-make-history.py
lines 187-198): keep emails scoring strictly above 30, sorted by score
descending. -/
def classifyEmailsToCategory (emails : List ThemedEmail) (category : String) :
    List ThemedEmail :=
  let category_keywords := categoryKeywords category
  let email_scores := emails.filterMap (fun email =>
    let score := calculateCategoryFitScore email category_keywords
    if 30 < score then some (email, score) else none)
  (List.insertionSort scoreDesc email_scores).map Prod.fst

/-- Deduplication preserving first occurrences, as Python `Counter` key
order does (insertion order). -/
def firstOccurrences (l : List String) : List String :=
  l.foldl (fun acc k => if acc.contains k then acc else acc ++ [k]) []

/-- Descending-count ordering over a fixed pool, used to model
`Counter.most_common` (stable by first occurrence). -/
def countDesc (pool : List String) (a b : String) : Prop :=
  pool.count b ≤ pool.count a

instance (pool : List String) : DecidableRel (countDesc pool) :=
  fun a b => Nat.decLe (pool.count b) (pool.count a)

/-- `ThematicProcessor.extract_cluster_keywords` (sb-make-history.py
lines 329-338): pool all email keywords, count them, and return the 8
most frequent (ties in first-occurrence order, as
`Counter.most_common` does). -/
def extractClusterKeywords (emails : List ThemedEmail) : List String :=
  let pool := (emails.map (fun e => e.keywords)).flatten
  (List.insertionSort (countDesc pool) (firstOccurrences pool)).take 8

/-- Python 3 `round` (round-half-to-even) applied to the exact rational
`total / n`, for `n > 0`. -/
def pyRoundHalfEvenDiv (total n : Nat) : Nat :=
  let q := total / n
  let r := total % n
  if 2 * r < n then q
  else if n < 2 * r then q + 1
  else if q % 2 = 0 then q else q + 1

/-- `ThematicProcessor.calculate_category_confidence` (sb-make-history.py
lines 240-249): `round(max(60, min(95, average_score)))` with
`average_score = total_score / len(emails)`, computed here in exact
rational arithmetic (the float computation agrees at these
magnitudes); 70 for an empty email list. -/
def calculateCategoryConfidence (emails : List ThemedEmail) (category : String) : Nat :=
  if emails.isEmpty then 70
  else
    let category_keywords := categoryKeywords category
    let total := (emails.map (fun e => calculateCategoryFitScore e category_keywords)).sum
    let n := emails.length
    if total ≤ 60 * n then 60
    else if 95 * n ≤ total then 95
    else pyRoundHalfEvenDiv total n

/-- Theme cluster built by `ThematicProcessor.perform_nlp_analysis`
(sb-make-history.py lines 141-185). -/
structure Cluster where
  emails : List ThemedEmail
  theme : String
  keywords : List String
  confidence : Nat
deriving DecidableEq, Repr

/-- Per-category cluster construction inside the loop of
`perform_nlp_analysis` (sb-make-history.py lines 148-157): `none` when
no email qualifies. -/
def mkCategoryCluster (emails : List ThemedEmail) (category : String) : Option Cluster :=
  let category_emails := classifyEmailsToCategory emails category
  if category_emails.isEmpty then none
  else some { emails := category_emails,
              theme := category,
              keywords := extractClusterKeywords category_emails,
              confidence := calculateCategoryConfidence category_emails category }

/-- Extension of the first existing "Other" cluster with the unclassified
emails (sb-make-history.py lines 169-172); at most one such cluster
exists since each predefined category contributes at most one
cluster. -/
def extendFirstOther (unclassified : List ThemedEmail) : List Cluster → List Cluster
  | [] => []
  | c :: cs =>
    if c.theme = "Other" then
      { c with emails := c.emails ++ unclassified,
               keywords := extractClusterKeywords (c.emails ++ unclassified) } :: cs
    else c :: extendFirstOther unclassified cs

/-- Sort key `len(c['emails']) * c['confidence']` of the final
`clusters.sort(..., reverse=True)` (sb-make-history.py line 182). -/
def clusterSortKey (c : Cluster) : Nat := c.emails.length * c.confidence

/-- Descending ordering on clusters by member count times confidence. -/
def clusterKeyDesc (a b : Cluster) : Prop := clusterSortKey b ≤ clusterSortKey a

instance : DecidableRel clusterKeyDesc :=
  fun a b => Nat.decLe (clusterSortKey b) (clusterSortKey a)

instance : IsTotal Cluster clusterKeyDesc :=
  ⟨fun a b => Nat.le_total (clusterSortKey b) (clusterSortKey a)⟩

instance : IsTrans Cluster clusterKeyDesc :=
  ⟨fun _ _ _ hab hbc => Nat.le_trans hbc hab⟩

/-- The per-category clusters built by the first loop of
`perform_nlp_analysis` (sb-make-history.py lines 145-157). -/
def nlpBaseClusters (emails : List ThemedEmail) : List Cluster :=
  predefinedCategories.filterMap (mkCategoryCluster emails)

/-- The `classified_ids` set of `perform_nlp_analysis`
(sb-make-history.py lines 160-163), as the list of ids of all cluster
members. -/
def nlpClassifiedIds (emails : List ThemedEmail) : List Nat :=
  ((nlpBaseClusters emails).map (fun c => c.emails.map ThemedEmail.id)).flatten

/-- The `unclassified_emails` of `perform_nlp_analysis`
(sb-make-history.py line 165): input emails whose id belongs to no
cluster. -/
def nlpUnclassified (emails : List ThemedEmail) : List ThemedEmail :=
  emails.filter (fun e => !((nlpClassifiedIds emails).contains e.id))

/-- The cluster list after the unclassified emails are merged into
"Other" (sb-make-history.py lines 167-179): no change when none are
unclassified; otherwise the existing "Other" cluster is extended, or a
new one with confidence 60 is appended. -/
def nlpClustersWithOther (emails : List ThemedEmail) : List Cluster :=
  if (nlpUnclassified emails).isEmpty then nlpBaseClusters emails
  else if (nlpBaseClusters emails).any (fun c => c.theme = "Other") then
    extendFirstOther (nlpUnclassified emails) (nlpBaseClusters emails)
  else
    nlpBaseClusters emails
      ++ [{ emails := nlpUnclassified emails,
            theme := "Other",
            keywords := extractClusterKeywords (nlpUnclassified emails),
            confidence := 60 }]

/-- `ThematicProcessor.perform_nlp_analysis` (sb-make-history.py
lines 141-185): build one cluster per predefined category with
qualifying emails, collect emails classified nowhere (by id) into the
"Other" cluster (confidence 60 when newly created), and sort clusters
by member count times confidence, descending (stably, like Python's
`list.sort`). -/
def performNlpAnalysis (emails : List ThemedEmail) : List Cluster :=
  List.insertionSort clusterKeyDesc (nlpClustersWithOther emails)

/- ===== sb-make-history.py: summaries and storage rows ===== -/

/-- Thematic summary record built by
`ThematicProcessor.generate_thematic_summaries` (sb-make-history.py
lines 251-274). -/
structure ThemeSummary where
  theme : String
  summaryText : String
  keywords : List String
  confidence : Nat
  source_emails : List ThemedEmail
deriving DecidableEq, Repr

/-- Fallback summary text used when the synthesis call raises
(sb-make-history.py lines 264-272). -/
def fallbackThemeSummaryText (cluster : Cluster) : String :=
  "This section covers " ++ toString cluster.emails.length
    ++ " emails related to " ++ pyLower cluster.theme
    ++ ". Key topics include: "
    ++ String.intercalate ", " (cluster.keywords.take 3) ++ "."

/-- `ThematicProcessor.generate_thematic_summaries` (sb-make-history.py
lines 251-274), with the external LLM synthesis call abstracted as
`llm` (`none` models an exception, handled by the fallback summary);
theme, keywords, confidence and source emails are copied from the
cluster on both paths. -/
def generateThematicSummaries (llm : Cluster → Option String)
    (clusters : List Cluster) : List ThemeSummary :=
  clusters.map (fun cluster =>
    match llm cluster with
    | some s =>
      { theme := cluster.theme, summaryText := s, keywords := cluster.keywords,
        confidence := cluster.confidence, source_emails := cluster.emails }
    | none =>
      { theme := cluster.theme, summaryText := fallbackThemeSummaryText cluster,
        keywords := cluster.keywords, confidence := cluster.confidence,
        source_emails := cluster.emails })

/-- Row of the `thematic_sections` table as inserted by
`ThematicProcessor.store_thematic_digest` (sb-make-history.py
lines 376-390): the display order is the enumeration index plus one. -/
structure SectionRow where
  theme : String
  summaryText : String
  confidence : Nat
  keywords : List String
  order : Nat
deriving DecidableEq, Repr

/-- The `thematic_sections` rows written by
`ThematicProcessor.store_thematic_digest` (sb-make-history.py
lines 376-390), in insertion order: `for i, summary in
enumerate(summaries)` with `"order"` column `i + 1`. -/
def storeThematicSections (summaries : List ThemeSummary) : List SectionRow :=
  summaries.enum.map (fun p =>
    { theme := p.2.theme, summaryText := p.2.summaryText,
      confidence := p.2.confidence, keywords := p.2.keywords,
      order := p.1 + 1 })

/- ===== sb-make-history.py: SubsBuzzHistoryGenerator digest creation ===== -/

/-- Raw fetched email as consumed by
`SubsBuzzHistoryGenerator.generate_digest_for_date` (the dicts built by
`parse_email_message`). -/
structure RawEmailRec where
  id : String
  sender : String
  subject : String
  received_at : Int
  content : String
deriving DecidableEq, Repr

/-- Result of `analyze_email_with_openai` (summary, topics, keywords);
the analysis call is abstracted as a function, `none` modelling an
exception inside the per-email loop (which skips the email). -/
structure EmailAnalysis where
  summary : String
  topics : List String
  keywords : List String
deriving DecidableEq, Repr

/-- Digest email entry built in `generate_digest_for_date`
(sb-make-history.py lines 830-839). -/
structure DigestEmailRec where
  sender : String
  subject : String
  received_at : Int
  summary : String
  full_content : String
  topics : List String
  keywords : List String
deriving DecidableEq, Repr

/-- Digest data returned by `generate_digest_for_date`
(sb-make-history.py lines 847-852). -/
structure DigestData where
  emails_processed : Nat
  topics_identified : Nat
  digest_emails : List DigestEmailRec
deriving DecidableEq, Repr

/-- Per-email survival and processing step of the loop in
`generate_digest_for_date` (sb-make-history.py lines 808-845): an
email is skipped when its content is empty or shorter than 50
characters after stripping, or when processing raises; otherwise the
topics are validated (empty topic list falls back to
`['Miscellaneous']`) and a digest email entry is built. -/
def processDigestEmail (analyze : String → Option EmailAnalysis)
    (email : RawEmailRec) : Option DigestEmailRec :=
  if email.content = "" || (pyStrip email.content).length < 50 then none
  else
    match analyze email.content with
    | none => none
    | some analysis =>
      let topics := if analysis.topics.isEmpty then ["Miscellaneous"] else analysis.topics
      some { sender := email.sender, subject := email.subject,
             received_at := email.received_at, summary := analysis.summary,
             full_content := email.content, topics := topics,
             keywords := analysis.keywords }

/-- `SubsBuzzHistoryGenerator.generate_digest_for_date` (sb-make-history.py
lines 797-852): `None` only when the fetched email list is empty;
otherwise a digest dict is always returned, even when every email was
skipped (`digest_emails` then being empty). `topics_identified` counts
distinct topics across the processed emails. -/
def generateDigestForDate (analyze : String → Option EmailAnalysis)
    (emails : List RawEmailRec) : Option DigestData :=
  if emails.isEmpty then none
  else
    let processed := emails.filterMap (processDigestEmail analyze)
    some { emails_processed := processed.length,
           topics_identified := (firstOccurrences ((processed.map (fun e => e.topics)).flatten)).length,
           digest_emails := processed }

/-- Row of the `email_digests` table inserted unconditionally by
`SubsBuzzHistoryGenerator.store_digest_in_database` (sb-make-history.py
lines 854-871) whenever it is called. -/
structure EmailDigestRow where
  emails_processed : Nat
  topics_identified : Nat
deriving DecidableEq, Repr

/-- `store_digest_in_database` inserts the `email_digests` row from the
digest data (sb-make-history.py lines 860-869). -/
def storeDigestInDatabase (dd : DigestData) : EmailDigestRow :=
  { emails_processed := dd.emails_processed,
    topics_identified := dd.topics_identified }

/-- One day of `SubsBuzzHistoryGenerator.run` (sb-make-history.py
lines 1026-1043): when the fetched list is non-empty,
`generate_digest_for_date` returns a (truthy) dict and
`store_digest_in_database` is called, creating a Digest row; `none`
means no Digest record was created for the day. -/
def runDay (analyze : String → Option EmailAnalysis)
    (emails : List RawEmailRec) : Option EmailDigestRow :=
  match generateDigestForDate analyze emails with
  | none => none
  | some dd => some (storeDigestInDatabase dd)

/- ===== theorems ===== -/

/-- Per-keyword contribution to the fit score as the specification
describes it: 10 for a keyword occurring case-insensitively in the
concatenated text, a further 15 when it occurs in the subject, a
further 10 when it occurs in some topic label. -/
def specKeywordScore (email : ThemedEmail) (keyword : String) : Nat :=
  if strIn (pyLower keyword) (emailTextOf email) then
    10 + (if strIn (pyLower keyword) (pyLower email.subject) then 15 else 0)
      + (if email.topics.any (fun topic => strIn (pyLower keyword) (pyLower topic)) then 10
         else 0)
  else 0

theorem foldl_keyword_score (email : ThemedEmail) :
    ∀ (l : List String) (a : Nat),
      l.foldl (fun score keyword =>
        if strIn (pyLower keyword) (emailTextOf email) then
          let score := score + 10
          let score := if strIn (pyLower keyword) (pyLower email.subject) then score + 15
            else score
          if email.topics.any (fun topic => strIn (pyLower keyword) (pyLower topic)) then
            score + 10
          else score
        else score) a
      = a + (l.map (specKeywordScore email)).sum
  | [], a => by simp
  | k :: l, a => by
    rw [List.foldl_cons, foldl_keyword_score email l, List.map_cons, List.sum_cons]
    simp only [specKeywordScore]
    split
    · split <;> split <;> omega
    · omega

theorem senderBonus_cases (sender : String) (ckws : List String) :
    getSenderCategoryBonus sender ckws = 0
    ∨ getSenderCategoryBonus sender ckws = 15
    ∨ getSenderCategoryBonus sender ckws = 20 := by
  simp only [getSenderCategoryBonus]
  split
  · right; right; rfl
  · split
    · right; left; rfl
    · left; rfl

/-- Claim C1: for every email and category keyword list, the fit score is
the minimum of 100 and the sum of the per-keyword contributions (10 per
keyword occurring in the concatenated subject, summary, topics and
keywords text; a further 15 for a subject occurrence; a further 10 for
a topic occurrence) plus the sender bonus; the sender bonus is 0, 15 or
20; and in particular, with zero keyword matches the score equals
exactly the sender bonus. -/
theorem C1_category_fit_score (email : ThemedEmail) (ckws : List String) :
    calculateCategoryFitScore email ckws
      = min 100 ((ckws.map (specKeywordScore email)).sum
          + getSenderCategoryBonus email.sender ckws)
    ∧ (getSenderCategoryBonus email.sender ckws = 0
        ∨ getSenderCategoryBonus email.sender ckws = 15
        ∨ getSenderCategoryBonus email.sender ckws = 20)
    ∧ ((∀ kw ∈ ckws, strIn (pyLower kw) (emailTextOf email) = false) →
        calculateCategoryFitScore email ckws = getSenderCategoryBonus email.sender ckws) := by
  have hmain : calculateCategoryFitScore email ckws
      = min 100 ((ckws.map (specKeywordScore email)).sum
          + getSenderCategoryBonus email.sender ckws) := by
    simp only [calculateCategoryFitScore]
    rw [foldl_keyword_score email ckws 0, Nat.zero_add]
  refine ⟨hmain, senderBonus_cases email.sender ckws, fun hnone => ?_⟩
  have hsum : (ckws.map (specKeywordScore email)).sum = 0 := by
    apply List.sum_eq_zero
    intro x hx
    rw [List.mem_map] at hx
    obtain ⟨kw, hkw, rfl⟩ := hx
    simp only [specKeywordScore, hnone kw hkw]
    simp
  rw [hmain, hsum, Nat.zero_add]
  have := senderBonus_cases email.sender ckws
  omega

/-- Email used to witness claim C1: no category keyword occurs in its
text, and its Substack sender earns the 15-point bonus for the
"Business + Finance" keyword list. -/
def c1email : ThemedEmail :=
  { id := 1, sender := "foo@substack.com", subject := "zzz", summary := "zzz",
    topics := ["zzz"], keywords := [] }

theorem C1_category_fit_score_witness :
    calculateCategoryFitScore c1email (categoryKeywords "Business + Finance") = 15 := by
  have h := (C1_category_fit_score c1email
    (categoryKeywords "Business + Finance")).2.2 (by decide)
  rw [h]
  decide

/-- Credential used against claim C3: expiry far in the future. -/
def c3ValidCred : OAuthData :=
  { access_token := "tok", refresh_token := some "ref", expires_at := some 100000 }

/-- Credential used against claim C3: already expired. -/
def c3ExpiredCred : OAuthData :=
  { access_token := "tok", refresh_token := some "ref", expires_at := some 0 }

/-- Claim C3 counterexample: a still-valid credential does not make
`refresh_oauth_token` return the input credential — it returns `None`;
and a failing refresh of an expired credential (transport error,
modelled by the provider call raising) returns the same `None`, so the
failure outcome carries no `CredentialError` reason and is not
distinguishable from the still-valid outcome. -/
theorem C3_refresh_counterexample :
    refreshOauthToken 0 none c3ValidCred = none
    ∧ refreshOauthToken 10000 none c3ExpiredCred = none
    ∧ refreshOauthToken 0 none c3ValidCred = refreshOauthToken 10000 none c3ExpiredCred := by
  decide

/-- Claim C3 (amended): `refresh_oauth_token` applied to a credential the
google-auth skewed check considers not yet expired returns `None`
without attempting a refresh; with a missing refresh token it returns
`None`; and when the provider call fails it also returns `None` — the
still-valid and failure outcomes are the same value, and no
`CredentialError` exists in the code. -/
theorem C3_refresh_outcomes (now : Int) (resp : Option ProviderTokenResponse)
    (d : OAuthData) :
    (credentialsExpired now d = false → refreshOauthToken now resp d = none)
    ∧ (d.refresh_token = none → refreshOauthToken now resp d = none)
    ∧ (resp = none → refreshOauthToken now resp d = none) := by
  refine ⟨fun h => ?_, fun h => ?_, fun h => ?_⟩
  · simp [refreshOauthToken, h]
  · cases hE : credentialsExpired now d <;>
      simp [refreshOauthToken, credentialsRefresh, h, hE]
  · cases hE : credentialsExpired now d <;>
      cases hR : d.refresh_token <;>
        simp [refreshOauthToken, credentialsRefresh, h, hE, hR]

theorem C3_refresh_outcomes_witness :
    credentialsExpired 0 c3ValidCred = false
    ∧ refreshOauthToken 0 none c3ValidCred = none :=
  ⟨by decide, (C3_refresh_outcomes 0 none c3ValidCred).1 (by decide)⟩

/-- Claim C4: when a refresh of an expired credential succeeds and the
provider's response omits a refresh token, the updated token data (and
the PATCH payload the save callback persists) retains the previously
stored refresh token — it is never silently dropped. -/
theorem C4_refresh_token_retained (now : Int) (d : OAuthData)
    (r : ProviderTokenResponse) (rt : String)
    (hexp : credentialsExpired now d = true)
    (hrt : d.refresh_token = some rt)
    (homit : r.refresh_token = none) :
    refreshOauthToken now (some r) d
      = some { access_token := r.access_token, refresh_token := some rt,
               expires_at := r.expires_at }
    ∧ (saveTokenCallbackPayload
        { access_token := r.access_token, refresh_token := some rt,
          expires_at := r.expires_at }).refreshToken = d.refresh_token := by
  constructor
  · simp [refreshOauthToken, hexp, credentialsRefresh, hrt, homit]
  · simp [saveTokenCallbackPayload, hrt]

/-- Expired credential used to witness claim C4. -/
def c4cred : OAuthData :=
  { access_token := "old", refresh_token := some "keepme", expires_at := some 0 }

/-- Refresh response omitting the refresh token, used to witness
claim C4. -/
def c4resp : ProviderTokenResponse :=
  { access_token := "new", refresh_token := none, expires_at := some 99999 }

theorem C4_refresh_token_retained_witness :
    refreshOauthToken 10000 (some c4resp) c4cred
      = some { access_token := c4resp.access_token, refresh_token := some "keepme",
               expires_at := c4resp.expires_at }
    ∧ (saveTokenCallbackPayload
        { access_token := c4resp.access_token, refresh_token := some "keepme",
          expires_at := c4resp.expires_at }).refreshToken = c4cred.refresh_token :=
  C4_refresh_token_retained 10000 c4cred c4resp "keepme" (by decide) (by decide) (by decide)

/-- Claim C5 counterexample: with structured result `"aa"` (2 characters,
below the 200-character gate) and raw body `"abc"`, the naive candidate
`"abc"` is exactly 1.5 times longer, so under the claim's
"at least 1.5 times" rule the naive candidate should be returned; the
code keeps the structured result (its comparison is strict). -/
theorem C5_quality_gate_counterexample :
    ¬ ((extractQualityGate "aa" "abc" = cleanTextContent (stripHtmlTags "abc"))
        ↔ 3 * (String.length "aa") ≤ 2 * (cleanTextContent (stripHtmlTags "abc")).length) := by
  decide

/-- Claim C5 (amended): when the structured result is shorter than 200
characters, the extractor returns the naive tag-stripped-and-normalized
version of the raw body if it is strictly more than 1.5 times longer
than the structured result, and the structured result otherwise (so a
naive candidate 2 times longer wins and one 1.2 times longer loses). -/
theorem C5_quality_gate (final_content raw_content : String)
    (h : final_content.length < 200) :
    (3 * final_content.length
        < 2 * (cleanTextContent (stripHtmlTags raw_content)).length →
      extractQualityGate final_content raw_content
        = cleanTextContent (stripHtmlTags raw_content))
    ∧ (2 * (cleanTextContent (stripHtmlTags raw_content)).length
        ≤ 3 * final_content.length →
      extractQualityGate final_content raw_content = final_content) := by
  simp only [extractQualityGate]
  rw [if_pos h]
  constructor
  · intro hc
    rw [if_pos hc]
  · intro hc
    rw [if_neg (by omega)]

theorem C5_quality_gate_witness :
    ("aa" : String).length < 200
    ∧ extractQualityGate "aa" "aaaa" = cleanTextContent (stripHtmlTags "aaaa") :=
  ⟨by decide, (C5_quality_gate "aa" "aaaa" (by decide)).1 (by decide)⟩

/-- Claim C6 (code evaluation at the failing input): an input with three
consecutive blank lines does not come out with exactly one blank line
in their place — the first substitution of `_clean_text_content`
collapses every whitespace run, newlines included, to a single space,
so `"a\n\n\n\n\nb"` normalizes to `"a b"` rather than `"a\n\nb"`. -/
theorem C6_clean_text_blank_lines :
    cleanTextContent "a\n\n\n\n\nb" = "a b"
    ∧ cleanTextContent "a\n\n\n\n\nb" ≠ "a\n\nb" := by
  decide

/-- Parsed message used against claim C7: its resolved sender differs
from the requested sender only in letter case. -/
def c7parsed : ParsedEmail :=
  { id := "m1", sender := "NEWS@EXAMPLE.COM", subject := "s",
    received_at := "2024-01-01T00:00:00", content := "c", original_link := none }

/-- Claim C7 counterexample: the From header
`"News <NEWS@EXAMPLE.COM>"` resolves (by angle-bracket extraction) to
`"NEWS@EXAMPLE.COM"`, which equals the requested sender
`"news@example.com"` up to case only; the membership filter drops the
message, so case differences in the provider's From headers are not
tolerated. -/
theorem C7_sender_filter_counterexample :
    extractSender "News <NEWS@EXAMPLE.COM>" = some "NEWS@EXAMPLE.COM"
    ∧ pyLower "NEWS@EXAMPLE.COM" = pyLower "news@example.com"
    ∧ filterByMonitoredSenders ["news@example.com"] [c7parsed] = [] := by
  decide

/-- Claim C7 (amended): every message kept by the second membership
filter comes from the parsed batch and has some requested sender
occurring as an exact, case-sensitive substring of its resolved
sender; formatting differences are handled only by the angle-bracket
sender extraction, and case differences are not tolerated. -/
theorem C7_sender_filter (valid_senders : List String) (parsed : List ParsedEmail)
    (p : ParsedEmail) (hp : p ∈ filterByMonitoredSenders valid_senders parsed) :
    p ∈ parsed ∧ ∃ s ∈ valid_senders, strIn s p.sender = true := by
  unfold filterByMonitoredSenders at hp
  rw [List.mem_filter] at hp
  refine ⟨hp.1, ?_⟩
  have h := hp.2
  rw [List.any_eq_true] at h
  exact h

/-- Parsed message used to witness claim C7: resolved sender containing
the requested sender verbatim. -/
def c7kept : ParsedEmail :=
  { id := "m2", sender := "news@example.com", subject := "s",
    received_at := "2024-01-01T00:00:00", content := "c", original_link := none }

theorem C7_sender_filter_witness :
    c7kept ∈ [c7kept]
    ∧ ∃ s ∈ ["news@example.com"], strIn s c7kept.sender = true :=
  C7_sender_filter ["news@example.com"] [c7kept] c7kept (by decide)

/-- Fetched email used against claim C8: non-empty content shorter than
50 characters, so it is skipped by the per-email loop. -/
def c8short : RawEmailRec :=
  { id := "g1", sender := "s@x", subject := "subj", received_at := 0, content := "hi" }

/-- Claim C8 counterexample: for a day whose only fetched email is
skipped (content under 50 characters), zero emails survive extraction,
yet `generate_digest_for_date` still returns a (truthy) digest dict and
the run stores it — a Digest record with `emails_processed = 0` is
created, contradicting the claim that no Digest is created. -/
theorem C8_empty_digest_counterexample :
    generateDigestForDate (fun _ => none) [c8short]
      = some { emails_processed := 0, topics_identified := 0, digest_emails := [] }
    ∧ runDay (fun _ => none) [c8short]
      = some { emails_processed := 0, topics_identified := 0 } := by
  decide

/-- Claim C8 (amended): no Digest record is created exactly when the
day's fetched email list is empty; whenever at least one email was
fetched, a Digest row is created — even if zero emails survive the
per-email skipping — and the empty-fetch day is reported as empty, not
as an error. -/
theorem C8_digest_created_iff_fetched (analyze : String → Option EmailAnalysis)
    (emails : List RawEmailRec) (h : emails ≠ []) :
    runDay analyze [] = none ∧ (runDay analyze emails).isSome = true := by
  constructor
  · rfl
  · have hne : emails.isEmpty = false := by
      cases emails
      · exact absurd rfl h
      · rfl
    simp [runDay, generateDigestForDate, hne]

theorem C8_digest_created_iff_fetched_witness :
    runDay (fun _ => none) [] = none
    ∧ (runDay (fun _ => none) [c8short]).isSome = true :=
  C8_digest_created_iff_fetched (fun _ => none) [c8short] (by decide)

/-- Claim C10: `extract_newsletter_content` is total: the empty string
maps to the empty string; plain-text input (no HTML detected) is only
normalized; and an exception anywhere in the HTML branch (modelled by
the abstract pipeline returning an error) is caught internally,
yielding the tag-stripped, normalized raw content — so no exception
escapes to the per-email loop in tasks.py. -/
theorem C10_extractor_total (htmlPipeline : String → Except String String)
    (raw : String) :
    extractNewsletterContent htmlPipeline "" = ""
    ∧ (containsHtml raw = false →
        extractNewsletterContent htmlPipeline raw = cleanTextContent raw)
    ∧ (∀ e, raw ≠ "" → htmlPipeline raw = Except.error e → containsHtml raw = true →
        extractNewsletterContent htmlPipeline raw
          = cleanTextContent (stripHtmlTags raw)) := by
  refine ⟨rfl, fun h => ?_, fun e hraw herr hhtml => ?_⟩
  · by_cases hempty : raw = ""
    · subst hempty
      rfl
    · simp [extractNewsletterContent, hempty, h]
  · simp [extractNewsletterContent, hraw, hhtml, herr]

/-- Abstract HTML pipeline that always raises, used to witness
claim C10. -/
def c10pipeline : String → Except String String :=
  fun _ => Except.error "parse failure"

theorem C10_extractor_total_witness :
    containsHtml "<p>hello world</p>" = true
    ∧ extractNewsletterContent c10pipeline "<p>hello world</p>"
        = cleanTextContent (stripHtmlTags "<p>hello world</p>") :=
  ⟨by decide,
    (C10_extractor_total c10pipeline "<p>hello world</p>").2.2 "parse failure"
      (by decide) rfl (by decide)⟩

theorem generateThematicSummaries_length (llm : Cluster → Option String)
    (cs : List Cluster) :
    (generateThematicSummaries llm cs).length = cs.length := by
  simp [generateThematicSummaries]

theorem generateThematicSummaries_theme (llm : Cluster → Option String)
    (cs : List Cluster) :
    (generateThematicSummaries llm cs).map ThemeSummary.theme = cs.map Cluster.theme := by
  unfold generateThematicSummaries
  rw [List.map_map]
  apply List.map_congr_left
  intro c _
  cases hl : llm c <;> simp [hl]

theorem storeThematicSections_order (summaries : List ThemeSummary) :
    (storeThematicSections summaries).map SectionRow.order
      = (List.range summaries.length).map (· + 1) := by
  unfold storeThematicSections
  rw [List.map_map]
  have h1 : (SectionRow.order ∘ fun p : Nat × ThemeSummary =>
      ({ theme := p.2.theme, summaryText := p.2.summaryText,
         confidence := p.2.confidence, keywords := p.2.keywords,
         order := p.1 + 1 } : SectionRow)) = (fun i => i + 1) ∘ Prod.fst := rfl
  rw [h1, ← List.map_map, List.enum_map_fst]

theorem storeThematicSections_theme (summaries : List ThemeSummary) :
    (storeThematicSections summaries).map SectionRow.theme
      = summaries.map ThemeSummary.theme := by
  unfold storeThematicSections
  rw [List.map_map]
  have h1 : (SectionRow.theme ∘ fun p : Nat × ThemeSummary =>
      ({ theme := p.2.theme, summaryText := p.2.summaryText,
         confidence := p.2.confidence, keywords := p.2.keywords,
         order := p.1 + 1 } : SectionRow)) = ThemeSummary.theme ∘ Prod.snd := rfl
  rw [h1, ← List.map_map, List.enum_map_snd]

/-- Claim C9: the clusters returned by classification are sorted in
descending order of member count times confidence, and the persisted
theme-section rows carry display orders 1, 2, 3, ... following that same
sorted sequence (their themes appear in the clusters' order). -/
theorem C9_section_ordering (emails : List ThemedEmail) (llm : Cluster → Option String) :
    List.Sorted clusterKeyDesc (performNlpAnalysis emails)
    ∧ (storeThematicSections
        (generateThematicSummaries llm (performNlpAnalysis emails))).map SectionRow.order
      = (List.range (performNlpAnalysis emails).length).map (· + 1)
    ∧ (storeThematicSections
        (generateThematicSummaries llm (performNlpAnalysis emails))).map SectionRow.theme
      = (performNlpAnalysis emails).map Cluster.theme := by
  refine ⟨?_, ?_, ?_⟩
  · exact List.sorted_insertionSort clusterKeyDesc (nlpClustersWithOther emails)
  · rw [storeThematicSections_order, generateThematicSummaries_length]
  · rw [storeThematicSections_theme, generateThematicSummaries_theme]

theorem mem_classifyEmailsToCategory (emails : List ThemedEmail) (category : String)
    (e : ThemedEmail) :
    e ∈ classifyEmailsToCategory emails category
      ↔ e ∈ emails ∧ 30 < calculateCategoryFitScore e (categoryKeywords category) := by
  simp only [classifyEmailsToCategory]
  constructor
  · intro h
    rw [List.mem_map] at h
    obtain ⟨p, hp, hpe⟩ := h
    have hp' := (List.perm_insertionSort scoreDesc _).subset hp
    rw [List.mem_filterMap] at hp'
    obtain ⟨e', he', hfe⟩ := hp'
    split at hfe
    · rw [Option.some.injEq] at hfe
      subst hfe
      have he2 : e' = e := hpe
      subst he2
      exact ⟨he', by assumption⟩
    · exact absurd hfe (by simp)
  · intro ⟨he, hs⟩
    rw [List.mem_map]
    refine ⟨(e, calculateCategoryFitScore e (categoryKeywords category)), ?_, rfl⟩
    apply (List.perm_insertionSort scoreDesc _).mem_iff.mpr
    rw [List.mem_filterMap]
    exact ⟨e, he, by simp [hs]⟩

theorem mkCategoryCluster_some (emails : List ThemedEmail) (category : String)
    (cl : Cluster) (h : mkCategoryCluster emails category = some cl) :
    cl.theme = category ∧ cl.emails = classifyEmailsToCategory emails category
    ∧ classifyEmailsToCategory emails category ≠ [] := by
  simp only [mkCategoryCluster] at h
  by_cases hE : (classifyEmailsToCategory emails category).isEmpty = true
  · rw [if_pos hE] at h
    exact absurd h (by simp)
  · rw [if_neg hE] at h
    rw [Option.some.injEq] at h
    subst h
    refine ⟨rfl, rfl, ?_⟩
    intro h0
    exact hE (by rw [h0]; rfl)

theorem mem_nlpBaseClusters (emails : List ThemedEmail) (cl : Cluster)
    (h : cl ∈ nlpBaseClusters emails) :
    cl.theme ∈ predefinedCategories
    ∧ cl.emails = classifyEmailsToCategory emails cl.theme
    ∧ classifyEmailsToCategory emails cl.theme ≠ [] := by
  unfold nlpBaseClusters at h
  rw [List.mem_filterMap] at h
  obtain ⟨c, hc, hmk⟩ := h
  obtain ⟨hth, hem, hne⟩ := mkCategoryCluster_some emails c cl hmk
  rw [hth]
  exact ⟨hc, hem, hne⟩

theorem nlpBaseClusters_complete (emails : List ThemedEmail) (c : String)
    (hc : c ∈ predefinedCategories) (hne : classifyEmailsToCategory emails c ≠ []) :
    ∃ cl ∈ nlpBaseClusters emails,
      cl.theme = c ∧ cl.emails = classifyEmailsToCategory emails c := by
  have hE : (classifyEmailsToCategory emails c).isEmpty = false := by
    cases h' : classifyEmailsToCategory emails c
    · exact absurd h' hne
    · rfl
  refine ⟨{ emails := classifyEmailsToCategory emails c, theme := c,
            keywords := extractClusterKeywords (classifyEmailsToCategory emails c),
            confidence := calculateCategoryConfidence
              (classifyEmailsToCategory emails c) c }, ?_, rfl, rfl⟩
  unfold nlpBaseClusters
  rw [List.mem_filterMap]
  exact ⟨c, hc, by simp [mkCategoryCluster, hE]⟩

theorem extendFirstOther_mem_of_ne (u : List ThemedEmail) (l : List Cluster)
    (cl : Cluster) (h : cl ∈ extendFirstOther u l) (hne : cl.theme ≠ "Other") :
    cl ∈ l := by
  induction l with
  | nil => simp [extendFirstOther] at h
  | cons c cs ih =>
    by_cases hoth : c.theme = "Other"
    · simp only [extendFirstOther] at h
      rw [if_pos hoth] at h
      rcases List.mem_cons.mp h with hl | hl
      · exact absurd (by rw [hl]; exact hoth) hne
      · exact List.mem_cons_of_mem c hl
    · simp only [extendFirstOther] at h
      rw [if_neg hoth] at h
      rcases List.mem_cons.mp h with hl | hl
      · rw [hl]
        exact List.mem_cons_self c cs
      · exact List.mem_cons_of_mem c (ih hl)

theorem extendFirstOther_preserves (u : List ThemedEmail) (l : List Cluster)
    (cl : Cluster) (x : ThemedEmail) (hcl : cl ∈ l) (hx : x ∈ cl.emails) :
    ∃ cl2 ∈ extendFirstOther u l, x ∈ cl2.emails := by
  induction l with
  | nil => cases hcl
  | cons c cs ih =>
    by_cases hoth : c.theme = "Other"
    · simp only [extendFirstOther]
      rw [if_pos hoth]
      rcases List.mem_cons.mp hcl with h | h
      · refine ⟨_, List.mem_cons_self _ _, ?_⟩
        show x ∈ c.emails ++ u
        rw [h] at hx
        exact List.mem_append_left u hx
      · exact ⟨cl, List.mem_cons_of_mem _ h, hx⟩
    · simp only [extendFirstOther]
      rw [if_neg hoth]
      rcases List.mem_cons.mp hcl with h | h
      · exact ⟨c, List.mem_cons_self _ _, h ▸ hx⟩
      · obtain ⟨cl2, h2, hx2⟩ := ih h
        exact ⟨cl2, List.mem_cons_of_mem _ h2, hx2⟩

theorem extendFirstOther_other (u : List ThemedEmail) (l : List Cluster)
    (hex : ∃ c ∈ l, c.theme = "Other") :
    ∃ cl ∈ extendFirstOther u l, cl.theme = "Other" ∧ ∀ x ∈ u, x ∈ cl.emails := by
  induction l with
  | nil =>
    obtain ⟨c, hc, _⟩ := hex
    cases hc
  | cons c cs ih =>
    by_cases hoth : c.theme = "Other"
    · simp only [extendFirstOther]
      rw [if_pos hoth]
      refine ⟨_, List.mem_cons_self _ _, hoth, ?_⟩
      intro x hx
      show x ∈ c.emails ++ u
      exact List.mem_append_right _ hx
    · simp only [extendFirstOther]
      rw [if_neg hoth]
      obtain ⟨c0, hc0, hth0⟩ := hex
      rcases List.mem_cons.mp hc0 with h | h
      · exact absurd (h ▸ hth0) hoth
      · obtain ⟨cl, hcl, hthm, hsub⟩ := ih ⟨c0, h, hth0⟩
        exact ⟨cl, List.mem_cons_of_mem _ hcl, hthm, hsub⟩

theorem not_classified_of_low_scores (emails : List ThemedEmail)
    (hids : (emails.map ThemedEmail.id).Nodup) (e : ThemedEmail) (he : e ∈ emails)
    (hall : ∀ c ∈ predefinedCategories,
      calculateCategoryFitScore e (categoryKeywords c) ≤ 30) :
    e ∈ nlpUnclassified emails := by
  unfold nlpUnclassified
  rw [List.mem_filter]
  refine ⟨he, ?_⟩
  have hnc : ¬ ((nlpClassifiedIds emails).contains e.id = true) := by
    intro hc
    have hm : e.id ∈ nlpClassifiedIds emails := by simpa using hc
    unfold nlpClassifiedIds at hm
    rw [List.mem_flatten] at hm
    obtain ⟨ids, hids', hmem⟩ := hm
    rw [List.mem_map] at hids'
    obtain ⟨cl, hcl, rfl⟩ := hids'
    rw [List.mem_map] at hmem
    obtain ⟨e', he'cl, hid⟩ := hmem
    obtain ⟨hthm, hem, _⟩ := mem_nlpBaseClusters emails cl hcl
    rw [hem, mem_classifyEmailsToCategory] at he'cl
    obtain ⟨he'in, hsc⟩ := he'cl
    have heq : e' = e := List.inj_on_of_nodup_map hids he'in he hid
    rw [heq] at hsc
    exact absurd hsc (by have := hall cl.theme hthm; omega)
  have hfalse : (nlpClassifiedIds emails).contains e.id = false := by
    cases hb : (nlpClassifiedIds emails).contains e.id
    · rfl
    · exact absurd hb hnc
  rw [Bool.not_eq_true']
  exact hfalse

theorem nlpBase_no_other (emails : List ThemedEmail)
    (h : classifyEmailsToCategory emails "Other" = []) :
    ∀ cl ∈ nlpBaseClusters emails, cl.theme ≠ "Other" := by
  intro cl hcl hoth
  obtain ⟨_, _, hne⟩ := mem_nlpBaseClusters emails cl hcl
  rw [hoth] at hne
  exact hne h

/-- Claim C2: assuming the input emails carry distinct ids (the stored
digest-email ids are database keys), membership in a non-"Other"
cluster is exactly a fit score strictly above 30 for that cluster's
category; every email scoring above 30 for no predefined category is a
member of an "Other" cluster; every input email belongs to at least one
returned cluster; and when no email qualifies for the "Other" category
by score, the "Other" cluster — created for the unclassified emails —
has confidence 60. -/
theorem C2_cluster_membership (emails : List ThemedEmail)
    (hids : (emails.map ThemedEmail.id).Nodup) :
    (∀ cl ∈ performNlpAnalysis emails, cl.theme ≠ "Other" →
      ∀ e : ThemedEmail, e ∈ cl.emails ↔
        (e ∈ emails ∧ 30 < calculateCategoryFitScore e (categoryKeywords cl.theme)))
    ∧ (∀ e ∈ emails,
        (∀ c ∈ predefinedCategories,
          calculateCategoryFitScore e (categoryKeywords c) ≤ 30) →
        ∃ cl ∈ performNlpAnalysis emails, cl.theme = "Other" ∧ e ∈ cl.emails)
    ∧ (∀ e ∈ emails, ∃ cl ∈ performNlpAnalysis emails, e ∈ cl.emails)
    ∧ ((classifyEmailsToCategory emails "Other" = [] ∧
        ∃ e ∈ emails, ∀ c ∈ predefinedCategories,
          calculateCategoryFitScore e (categoryKeywords c) ≤ 30) →
      ∃ cl ∈ performNlpAnalysis emails, cl.theme = "Other" ∧ cl.confidence = 60) := by
  have hperm : ∀ cl : Cluster,
      cl ∈ performNlpAnalysis emails ↔ cl ∈ nlpClustersWithOther emails := fun cl =>
    (List.perm_insertionSort clusterKeyDesc (nlpClustersWithOther emails)).mem_iff
  have hbase_of_ne : ∀ cl : Cluster, cl ∈ nlpClustersWithOther emails →
      cl.theme ≠ "Other" → cl ∈ nlpBaseClusters emails := by
    intro cl hcl hne
    unfold nlpClustersWithOther at hcl
    split at hcl
    · exact hcl
    · split at hcl
      · exact extendFirstOther_mem_of_ne _ _ cl hcl hne
      · rcases List.mem_append.mp hcl with h | h
        · exact h
        · rw [List.mem_singleton] at h
          exact absurd (by rw [h]) hne
  have hpreserve : ∀ (cl : Cluster) (x : ThemedEmail), cl ∈ nlpBaseClusters emails →
      x ∈ cl.emails → ∃ cl2 ∈ nlpClustersWithOther emails, x ∈ cl2.emails := by
    intro cl x hcl hx
    unfold nlpClustersWithOther
    split
    · exact ⟨cl, hcl, hx⟩
    · split
      · exact extendFirstOther_preserves _ _ cl x hcl hx
      · exact ⟨cl, List.mem_append_left _ hcl, hx⟩
  have h1 : ∀ cl ∈ performNlpAnalysis emails, cl.theme ≠ "Other" →
      ∀ e : ThemedEmail, e ∈ cl.emails ↔
        (e ∈ emails ∧ 30 < calculateCategoryFitScore e (categoryKeywords cl.theme)) := by
    intro cl hcl hne e
    have hbase := hbase_of_ne cl ((hperm cl).mp hcl) hne
    obtain ⟨_, hem, _⟩ := mem_nlpBaseClusters emails cl hbase
    rw [hem, mem_classifyEmailsToCategory]
  have h2 : ∀ e ∈ emails,
      (∀ c ∈ predefinedCategories,
        calculateCategoryFitScore e (categoryKeywords c) ≤ 30) →
      ∃ cl ∈ performNlpAnalysis emails, cl.theme = "Other" ∧ e ∈ cl.emails := by
    intro e he hall
    have hu : e ∈ nlpUnclassified emails :=
      not_classified_of_low_scores emails hids e he hall
    have hne : ¬ ((nlpUnclassified emails).isEmpty = true) := by
      cases h' : nlpUnclassified emails
      · rw [h'] at hu
        cases hu
      · simp [h']
    by_cases hany :
        (nlpBaseClusters emails).any (fun c => c.theme = "Other") = true
    · have hex : ∃ c ∈ nlpBaseClusters emails, c.theme = "Other" := by
        rw [List.any_eq_true] at hany
        simpa using hany
      obtain ⟨cl, hcl, hthm, hsub⟩ :=
        extendFirstOther_other (nlpUnclassified emails) _ hex
      refine ⟨cl, ?_, hthm, hsub e hu⟩
      rw [hperm]
      unfold nlpClustersWithOther
      rw [if_neg hne, if_pos hany]
      exact hcl
    · refine ⟨{ emails := nlpUnclassified emails, theme := "Other",
                keywords := extractClusterKeywords (nlpUnclassified emails),
                confidence := 60 }, ?_, rfl, hu⟩
      rw [hperm]
      unfold nlpClustersWithOther
      rw [if_neg hne, if_neg hany]
      exact List.mem_append_right _ (List.mem_singleton.mpr rfl)
  have h3 : ∀ e ∈ emails, ∃ cl ∈ performNlpAnalysis emails, e ∈ cl.emails := by
    intro e he
    by_cases hex : ∃ c ∈ predefinedCategories,
        30 < calculateCategoryFitScore e (categoryKeywords c)
    · obtain ⟨c, hc, hsc⟩ := hex
      have hmem : e ∈ classifyEmailsToCategory emails c :=
        (mem_classifyEmailsToCategory emails c e).mpr ⟨he, hsc⟩
      obtain ⟨cl, hcl, _, hem⟩ :=
        nlpBaseClusters_complete emails c hc (List.ne_nil_of_mem hmem)
      obtain ⟨cl2, hcl2, hx2⟩ := hpreserve cl e hcl (by rw [hem]; exact hmem)
      exact ⟨cl2, (hperm cl2).mpr hcl2, hx2⟩
    · push_neg at hex
      obtain ⟨cl, hcl, _, hx⟩ := h2 e he hex
      exact ⟨cl, hcl, hx⟩
  have h4 : (classifyEmailsToCategory emails "Other" = [] ∧
      ∃ e ∈ emails, ∀ c ∈ predefinedCategories,
        calculateCategoryFitScore e (categoryKeywords c) ≤ 30) →
      ∃ cl ∈ performNlpAnalysis emails, cl.theme = "Other" ∧ cl.confidence = 60 := by
    rintro ⟨hother, e, he, hall⟩
    have hnoOther := nlpBase_no_other emails hother
    have hany : ¬ ((nlpBaseClusters emails).any (fun c => c.theme = "Other") = true) := by
      intro h
      rw [List.any_eq_true] at h
      obtain ⟨c0, hc0, h0⟩ := h
      exact hnoOther c0 hc0 (by simpa using h0)
    have hu : e ∈ nlpUnclassified emails :=
      not_classified_of_low_scores emails hids e he hall
    have hne : ¬ ((nlpUnclassified emails).isEmpty = true) := by
      cases h' : nlpUnclassified emails
      · rw [h'] at hu
        cases hu
      · simp [h']
    refine ⟨{ emails := nlpUnclassified emails, theme := "Other",
              keywords := extractClusterKeywords (nlpUnclassified emails),
              confidence := 60 }, ?_, rfl, rfl⟩
    rw [hperm]
    unfold nlpClustersWithOther
    rw [if_neg hne, if_neg hany]
    exact List.mem_append_right _ (List.mem_singleton.mpr rfl)
  exact ⟨h1, h2, h3, h4⟩

/-- Email used to witness claim C2: it matches no category keyword and no
sender pattern, so it scores 0 for every category and lands in the
"Other" cluster. -/
def c2email : ThemedEmail :=
  { id := 7, sender := "x@x", subject := "zzz", summary := "zzz",
    topics := ["zzz"], keywords := [] }

theorem C2_cluster_membership_witness :
    ∃ cl ∈ performNlpAnalysis [c2email], cl.theme = "Other" ∧ c2email ∈ cl.emails :=
  (C2_cluster_membership [c2email] (by decide)).2.1 c2email (by decide) (by decide)
